import Mathlib

/-!
# Verification of the Polar Builder repository

This file embeds the parts of the `polar-builder` repository needed to settle
the frozen claims: the Polar Aggregation Engine (the backend implementation is
not part of the repository snapshot, so it is modelled from the design spec),
the cascade-delete behaviour of the SQL schema, the Dashboard statistics
reduction, and the numeric-field conversion of the boat-creation form.

Real-valued quantities (wind speed in knots, wind angle in degrees, boat speed
in knots) are embedded as rationals `ℚ` so that every definition is executable
and decidable.
-/

namespace PolarEngine

/-- Modelled from the spec: the polar-generation backend source is missing from
the repository snapshot. §3 Data Model — a Sample is
`{wind_speed: float knots, wind_angle: float degrees, boat_speed: float knots,
timestamp}`; the timestamp plays no role in filtering, bucketing or merging and
is omitted. -/
structure Sample where
  wind_speed : ℚ
  wind_angle : ℚ
  boat_speed : ℚ
deriving DecidableEq

/-- Modelled from the spec: §6 External Interfaces — the bin-width
configuration: wind-speed bin size, angle bin size, minimum samples per cell,
plausibility maxima of §4.2, and the progressive-merge confidence threshold of
§4.5. -/
structure Config where
  wind_speed_bin_width : ℚ
  angle_bin_width : ℚ
  min_sample_count : Nat
  max_wind_speed : ℚ
  max_boat_speed : ℚ
  merge_confidence_threshold : Nat
deriving DecidableEq

/-- Reduce an angle in degrees into `[0, 360)`. -/
def wrap360 (a : ℚ) : ℚ := a - 360 * (⌊a / 360⌋ : ℚ)

/-- Modelled from the spec: §4.2 — `wind_angle` normalized into `[0, 180]` by
symmetry (port/starboard folded): reduce modulo 360 into `[0, 360)`, then fold
angles above 180° to `360 - a`. This single convention is applied to every
sample. -/
def normalizeAngle (a : ℚ) : ℚ :=
  if wrap360 a > 180 then 360 - wrap360 a else wrap360 a

/-- Modelled from the spec: §4.2 Sample Filter validity rules —
`wind_speed` within `(0, max)` and `boat_speed` within `[0, max)`. -/
def acceptSample (cfg : Config) (s : Sample) : Bool :=
  decide (0 < s.wind_speed) && decide (s.wind_speed < cfg.max_wind_speed) &&
  decide (0 ≤ s.boat_speed) && decide (s.boat_speed < cfg.max_boat_speed)

/-- Modelled from the spec: §4.2 — the Sample Filter normalizes the
wind angle of each sample and keeps exactly the samples passing the validity rules, producing
a filtered sequence without mutating the input. -/
def filterSamples (cfg : Config) (l : List Sample) : List Sample :=
  (l.map (fun s => { s with wind_angle := normalizeAngle s.wind_angle })).filter
    (acceptSample cfg)

/-- Modelled from the spec: §4.3 — the Bucket Key of a sample: integer division
of `wind_speed` and `wind_angle` by the configured bin widths. -/
def bucketKey (cfg : Config) (s : Sample) : ℤ × ℤ :=
  (⌊s.wind_speed / cfg.wind_speed_bin_width⌋, ⌊s.wind_angle / cfg.angle_bin_width⌋)

/-- Modelled from the spec: §3 — a Cell accumulates a sample count and, under
the max aggregation policy of §4.3(a), the maximum observed boat speed. -/
structure Cell where
  count : Nat
  max_speed : ℚ
deriving DecidableEq

/-- Modelled from the spec: §3 — a Polar Table maps each (wind-speed bin,
wind-angle bin) key to its cell, `none` where no data. -/
def PolarTable : Type := ℤ × ℤ → Option Cell

/-- The table with no data in any cell. -/
def emptyTable : PolarTable := fun _ => none

/-- Modelled from the spec: §4.3 — fold one boat-speed observation into a
cell: start a fresh cell at count 1, or bump the count and keep the maximum
observed speed. -/
def addToCell : Option Cell → ℚ → Cell
  | none, v => ⟨1, v⟩
  | some c, v => ⟨c.count + 1, max c.max_speed v⟩

/-- Modelled from the spec: §4.3 — accumulate one accepted sample into the
cell for its Bucket Key; all other cells are untouched. -/
def insertSample (cfg : Config) (m : PolarTable) (s : Sample) : PolarTable :=
  fun k => if k = bucketKey cfg s then some (addToCell (m k) s.boat_speed) else m k

/-- Modelled from the spec: §4.3 — single-pass aggregation of the accepted
samples into cells. -/
def aggregate (cfg : Config) (l : List Sample) : PolarTable :=
  l.foldl (insertSample cfg) emptyTable

/-- Modelled from the spec: §4.3/§4.4 — cells below the minimum sample count
are treated as unreliable and excluded (left null) from the built table. -/
def buildTable (cfg : Config) (l : List Sample) : PolarTable :=
  fun k =>
    match aggregate cfg l k with
    | some c => if cfg.min_sample_count ≤ c.count then some c else none
    | none => none

/-- Modelled from the spec: §4.5 Progressive Merge, cell-by-cell: if the new
cell has a sample count above the confidence threshold and a boat speed
exceeding the existing value, replace it; otherwise keep the existing value
(an absent existing value is exceeded by any new value). -/
def mergeCell (threshold : Nat) : Option Cell → Option Cell → Option Cell
  | existing, none => existing
  | none, some n => if threshold < n.count then some n else none
  | some e, some n =>
      if threshold < n.count ∧ e.max_speed < n.max_speed then some n else some e

/-- Modelled from the spec: §4.5 — merge an existing Polar Table with a newly
computed one, cell by cell. -/
def mergeTables (threshold : Nat) (existing new : PolarTable) : PolarTable :=
  fun k => mergeCell threshold (existing k) (new k)

/-- Modelled from the spec: §7 — progressive merge never fails on a missing
prior table: it is treated as a merge against an empty table. -/
def mergeWithPrior (threshold : Nat) (prior : Option PolarTable)
    (new : PolarTable) : PolarTable :=
  match prior with
  | some p => mergeTables threshold p new
  | none => mergeTables threshold emptyTable new

/-- Modelled from the spec: §7 Error Handling — the generation-level errors:
`NoValidDataError` (empty file or no valid samples at all) and
`InsufficientDataError` (zero reliable cells after filtering). -/
inductive GenError where
  | noValidData
  | insufficientData
deriving DecidableEq

/-- Whether some aggregated cell reaches the minimum sample count. Every
non-empty cell is at the bucket key of at least one sample, so scanning the
own bucket keys of the samples covers every cell. -/
def reliableCellExists (cfg : Config) (samples : List Sample) : Bool :=
  samples.any fun s =>
    match aggregate cfg samples (bucketKey cfg s) with
    | some c => decide (cfg.min_sample_count ≤ c.count)
    | none => false

/-- Modelled from the spec: §2/§7 — the polar-generation pipeline from parsed
samples: filter, fail with `noValidData` when no valid samples remain, fail
with `insufficientData` when no cell reaches the minimum sample count, and
otherwise build the table. -/
def generateFromSamples (cfg : Config) (raw : List Sample) :
    Except GenError PolarTable :=
  if (filterSamples cfg raw).isEmpty then .error .noValidData
  else if reliableCellExists cfg (filterSamples cfg raw) then
    .ok (buildTable cfg (filterSamples cfg raw))
  else .error .insufficientData

/-- Split a list of characters at each occurrence of a separator. -/
def splitOnChar (sep : Char) (cs : List Char) : List (List Char) :=
  cs.foldr
    (fun c acc =>
      match acc with
      | [] => [[c]]
      | f :: rest => if c = sep then [] :: f :: rest else (c :: f) :: rest)
    [[]]

/-- Parse a nonempty run of decimal digits as a natural number. -/
def parseDigits? (cs : List Char) : Option Nat :=
  if cs.isEmpty then none
  else
    cs.foldl
      (fun acc c =>
        acc.bind fun n => if c.isDigit then some (10 * n + (c.toNat - 48)) else none)
      (some 0)

/-- Parse an unsigned decimal numeral, optionally with a fractional part. -/
def parseUnsigned? (cs : List Char) : Option ℚ :=
  match splitOnChar '.' cs with
  | [ip] => (parseDigits? ip).map (fun n => (n : ℚ))
  | [ip, fp] =>
      match parseDigits? ip, parseDigits? fp with
      | some i, some f => some ((i : ℚ) + (f : ℚ) / (10 : ℚ) ^ fp.length)
      | _, _ => none
  | _ => none

/-- Modelled from the spec: §4.1 — a numeric log field: optional leading
minus, then an unsigned decimal numeral; `none` when the field is missing or
non-numeric. -/
def parseDecimal? (cs : List Char) : Option ℚ :=
  match cs with
  | '-' :: rest => (parseUnsigned? rest).map Neg.neg
  | _ => parseUnsigned? cs

/-- Modelled from the spec: §4.1 Log Record Parser — one line of delimited
text; fixed column semantics: wind speed, wind angle, boat speed (further
columns, such as the optional timestamp, are ignored). `none` when a
required numeric field is missing or non-numeric; such a line is skipped and
not fatal to the file. -/
def parseLine (line : String) : Option Sample :=
  match splitOnChar ',' line.data with
  | ws :: wa :: bs :: _ =>
      match parseDecimal? ws, parseDecimal? wa, parseDecimal? bs with
      | some a, some b, some c => some ⟨a, b, c⟩
      | _, _, _ => none
  | _ => none

/-- Modelled from the spec: §6/§7 — full polar generation for one uploaded
file: parse each line (malformed lines are skipped and counted, not fatal),
then filter, aggregate and build. -/
def generatePolar (cfg : Config) (lines : List String) :
    Except GenError PolarTable :=
  generateFromSamples cfg (lines.filterMap parseLine)

/-- The boat-speed value of a generation result at a bucket key: `none` when
generation failed or the cell is empty. -/
def polarValue (r : Except GenError PolarTable) (k : ℤ × ℤ) : Option ℚ :=
  match r with
  | .ok T => (T k).map Cell.max_speed
  | .error _ => none

/-- The three input samples of the worked example in the spec: (10 kt, 60°,
6.0 kt), (10 kt, 62°, 6.5 kt), (10 kt, 121°, 7.0 kt). -/
def exampleSamples : List Sample := [⟨10, 60, 6⟩, ⟨10, 62, 13/2⟩, ⟨10, 121, 7⟩]

end PolarEngine

namespace PolarEngine

/-- C1: Progressive merge is idempotent — merging any polar table with itself,
at any confidence threshold, yields the table unchanged. -/
theorem mergeTables_self_idem (threshold : Nat) (T : PolarTable) :
    mergeTables threshold T T = T := by
  funext k
  show mergeCell threshold (T k) (T k) = T k
  cases hT : T k with
  | none => rfl
  | some c =>
      simp only [mergeCell, lt_irrefl, and_false, if_false]

/-- A configuration used by concrete witnesses: 2 kt wind-speed bins, 5° angle
bins, minimum 1 sample per cell, 60 kt / 30 kt plausibility maxima, merge
confidence threshold 2. -/
def testConfig : Config := ⟨2, 5, 1, 60, 30, 2⟩

/-- Merging anything with an absent new cell keeps the existing cell. -/
theorem mergeCell_none_right (t : Nat) (e : Option Cell) : mergeCell t e none = e := by
  cases e <;> rfl

/-- Merging an absent existing cell with a present new cell keeps the new
cell exactly when it is confident. -/
theorem mergeCell_none_some (t : Nat) (n : Cell) :
    mergeCell t none (some n) = if t < n.count then some n else none := rfl

/-- Merging two present cells replaces the existing one exactly when the new
cell is confident and faster. -/
theorem mergeCell_some_some (t : Nat) (e n : Cell) :
    mergeCell t (some e) (some n) =
      if t < n.count ∧ e.max_speed < n.max_speed then some n else some e := rfl

/-- C2: Progressive merge is cell-wise monotone: at every cell the merged
value is at least the existing value, and either the existing cell is kept
unchanged or it is replaced by the new cell — the latter only when the new
sample count of the new cell is above the confidence threshold and its boat speed
exceeds the existing value. -/
theorem mergeTables_monotone (threshold : Nat) (E N : PolarTable) (k : ℤ × ℤ) :
    (∀ ce, E k = some ce →
        ∃ cm, mergeTables threshold E N k = some cm ∧ ce.max_speed ≤ cm.max_speed)
    ∧ (mergeTables threshold E N k = E k ∨
        ∃ cn, N k = some cn ∧ mergeTables threshold E N k = some cn ∧
          threshold < cn.count ∧
          ∀ ce, E k = some ce → ce.max_speed < cn.max_speed) := by
  have hm : mergeTables threshold E N k = mergeCell threshold (E k) (N k) := rfl
  rw [hm]
  cases hE : E k with
  | none =>
      cases hN : N k with
      | none =>
          exact ⟨fun ce hce => Option.noConfusion hce,
            Or.inl (mergeCell_none_right threshold none)⟩
      | some n =>
          rw [mergeCell_none_some]
          by_cases hc : threshold < n.count
          · rw [if_pos hc]
            exact ⟨fun ce hce => Option.noConfusion hce,
              Or.inr ⟨n, rfl, rfl, hc, fun ce hce => Option.noConfusion hce⟩⟩
          · rw [if_neg hc]
            exact ⟨fun ce hce => Option.noConfusion hce, Or.inl rfl⟩
  | some e =>
      cases hN : N k with
      | none =>
          rw [mergeCell_none_right]
          refine ⟨fun ce hce => ?_, Or.inl rfl⟩
          obtain rfl : e = ce := Option.some.inj hce
          exact ⟨e, rfl, le_refl _⟩
      | some n =>
          rw [mergeCell_some_some]
          by_cases hc : threshold < n.count ∧ e.max_speed < n.max_speed
          · rw [if_pos hc]
            refine ⟨fun ce hce => ?_, Or.inr ⟨n, rfl, rfl, hc.1, fun ce hce => ?_⟩⟩
            · obtain rfl : e = ce := Option.some.inj hce
              exact ⟨n, rfl, le_of_lt hc.2⟩
            · obtain rfl : e = ce := Option.some.inj hce
              exact hc.2
          · rw [if_neg hc]
            refine ⟨fun ce hce => ?_, Or.inl rfl⟩
            obtain rfl : e = ce := Option.some.inj hce
            exact ⟨e, rfl, le_refl _⟩

/-- Concrete instance of `mergeTables_monotone`: with threshold 0, an
existing cell of max speed 5 and a new confident cell of max speed 6, the
merged value is at least 5. -/
theorem mergeTables_monotone_witness :
    ∃ cm, mergeTables 0 (fun _ => some ⟨1, 5⟩) (fun _ => some ⟨2, 6⟩) (0, 0) =
        some cm ∧ (5 : ℚ) ≤ cm.max_speed :=
  (mergeTables_monotone 0 (fun _ => some ⟨1, 5⟩) (fun _ => some ⟨2, 6⟩) (0, 0)).1
    ⟨1, 5⟩ rfl

/-- The wrapped angle `wrap360 a` lands in `[0, 360)`. -/
theorem wrap360_bounds (a : ℚ) : 0 ≤ wrap360 a ∧ wrap360 a < 360 := by
  have key : wrap360 a = 360 * Int.fract (a / 360) := by
    rw [wrap360, Int.fract]; ring
  constructor
  · rw [key]
    exact mul_nonneg (by norm_num) (Int.fract_nonneg _)
  · rw [key]
    have := Int.fract_lt_one (a / 360)
    nlinarith

/-- The folded angle always lands in the closed interval `[0, 180]`. -/
theorem normalizeAngle_bounds (a : ℚ) :
    0 ≤ normalizeAngle a ∧ normalizeAngle a ≤ 180 := by
  obtain ⟨h0, h1⟩ := wrap360_bounds a
  unfold normalizeAngle
  split <;> constructor <;> linarith

/-- C5: every sample accepted by the Sample Filter has its normalized wind
angle in `[0, 180]`, and every accepted sample was obtained from an input
sample by the single folding convention `normalizeAngle`. -/
theorem filterSamples_angle_range (cfg : Config) (l : List Sample) (s : Sample)
    (hs : s ∈ filterSamples cfg l) :
    (0 ≤ s.wind_angle ∧ s.wind_angle ≤ 180) ∧
      ∃ t, t ∈ l ∧ s = { t with wind_angle := normalizeAngle t.wind_angle } := by
  unfold filterSamples at hs
  obtain ⟨hmem, -⟩ := List.mem_filter.mp hs
  obtain ⟨t, ht, rfl⟩ := List.mem_map.mp hmem
  exact ⟨normalizeAngle_bounds t.wind_angle, t, ht, rfl⟩

/-- Concrete instance of `filterSamples_angle_range`: a raw 200° wind angle is
folded to 160°, inside `[0, 180]`. -/
theorem filterSamples_angle_range_witness :
    0 ≤ (Sample.mk 10 160 5).wind_angle ∧ (Sample.mk 10 160 5).wind_angle ≤ 180 := by
  have hn : normalizeAngle (200 : ℚ) = 160 := by
    have hw : wrap360 (200 : ℚ) = 200 := by rw [wrap360]; norm_num
    rw [normalizeAngle, hw]
    norm_num
  have hacc : acceptSample testConfig ⟨10, 160, 5⟩ = true := by
    simp only [acceptSample, testConfig, Bool.and_eq_true, decide_eq_true_eq]
    norm_num
  have hf : filterSamples testConfig [⟨10, 200, 5⟩] = [⟨10, 160, 5⟩] := by
    rw [filterSamples]
    simp only [List.map_cons, List.map_nil]
    rw [show ({ Sample.mk 10 200 5 with wind_angle := normalizeAngle 200 } : Sample) =
      Sample.mk 10 160 5 by rw [hn]]
    simp [List.filter, hacc]
  exact (filterSamples_angle_range testConfig [⟨10, 200, 5⟩] ⟨10, 160, 5⟩
    (by rw [hf]; exact List.mem_singleton.mpr rfl)).1

/-- C6: the Bucket Aggregator assigns each sample the key obtained by integer
division of its wind speed and wind angle by the configured bin widths: it
updates exactly the cell at that key and leaves every other cell unchanged. -/
theorem insertSample_bucket (cfg : Config) (m : PolarTable) (s : Sample)
    (k : ℤ × ℤ) :
    bucketKey cfg s =
      (⌊s.wind_speed / cfg.wind_speed_bin_width⌋,
        ⌊s.wind_angle / cfg.angle_bin_width⌋) ∧
    insertSample cfg m s (bucketKey cfg s) =
      some (addToCell (m (bucketKey cfg s)) s.boat_speed) ∧
    (k ≠ bucketKey cfg s → insertSample cfg m s k = m k) :=
  ⟨rfl, by simp [insertSample], fun hk => by simp [insertSample, hk]⟩

/-- Concrete instance of `insertSample_bucket`: the sample (10 kt, 60°) lands
in bucket (5, 12), so inserting it leaves the cell at (0, 0) unchanged. -/
theorem insertSample_bucket_witness :
    insertSample testConfig emptyTable ⟨10, 60, 6⟩ (0, 0) = emptyTable (0, 0) := by
  have hb : bucketKey testConfig ⟨10, 60, 6⟩ = (5, 12) := by
    rw [bucketKey]
    norm_num [testConfig, Prod.ext_iff]
  exact (insertSample_bucket testConfig emptyTable ⟨10, 60, 6⟩ (0, 0)).2.2
    (by rw [hb]; decide)

/-- C7: merging with a missing prior table always succeeds (it is a total
function into polar tables) and equals merging with the empty table. -/
theorem mergeWithPrior_none (threshold : Nat) (N : PolarTable) :
    mergeWithPrior threshold none N = mergeTables threshold emptyTable N := rfl

/-- C4: a file with zero parseable lines — an empty file, or one where every
line fails to parse — aborts generation with `NoValidDataError` instead of
returning a table. -/
theorem generatePolar_noValidData (cfg : Config) (lines : List String)
    (h : lines.filterMap parseLine = []) :
    generatePolar cfg lines = .error .noValidData := by
  rw [generatePolar, h]
  rfl

/-- Concrete instance of `generatePolar_noValidData`: an empty line, a
non-delimited line and a non-numeric line all fail to parse, so the file
errors out. -/
theorem generatePolar_noValidData_witness :
    generatePolar testConfig ["", "hello world", "a,b,c"] = .error .noValidData :=
  generatePolar_noValidData testConfig ["", "hello world", "a,b,c"] (by decide)

/-- An angle already in `[0, 180]` is unchanged by normalization. -/
theorem normalizeAngle_eq_self {a : ℚ} (h0 : 0 ≤ a) (h1 : a ≤ 180) :
    normalizeAngle a = a := by
  have hfl : ⌊a / 360⌋ = 0 := by
    rw [Int.floor_eq_zero_iff, Set.mem_Ico]
    constructor
    · positivity
    · rw [div_lt_one (by norm_num : (0:ℚ) < 360)]
      linarith
  have hw : wrap360 a = a := by
    rw [wrap360, hfl]
    push_cast
    ring
  rw [normalizeAngle, hw, if_neg (by linarith : ¬a > 180)]

/-- C3: on the worked example of the spec — samples (10 kt, 60°, 6.0 kt),
(10 kt, 62°, 6.5 kt), (10 kt, 121°, 7.0 kt), bin widths (2 kt, 5°), minimum
sample count 1, max policy — the value of the generated table at the
(10 kt, 60°) bucket is 6.5 and its value at the (10 kt, 120°) bucket is
7.0. -/
theorem generate_example_cells :
    polarValue (generateFromSamples testConfig exampleSamples)
        (bucketKey testConfig ⟨10, 60, 0⟩) = some (13/2) ∧
      polarValue (generateFromSamples testConfig exampleSamples)
        (bucketKey testConfig ⟨10, 120, 0⟩) = some 7 := by
  have hb1 : bucketKey testConfig ⟨10, 60, 6⟩ = (5, 12) := by
    rw [bucketKey]; norm_num [testConfig, Prod.ext_iff]
  have hb2 : bucketKey testConfig ⟨10, 62, 13/2⟩ = (5, 12) := by
    rw [bucketKey]; norm_num [testConfig, Prod.ext_iff]
  have hb3 : bucketKey testConfig ⟨10, 121, 7⟩ = (5, 24) := by
    rw [bucketKey]; norm_num [testConfig, Prod.ext_iff]
  have hp60 : bucketKey testConfig ⟨10, 60, 0⟩ = (5, 12) := by
    rw [bucketKey]; norm_num [testConfig, Prod.ext_iff]
  have hp120 : bucketKey testConfig ⟨10, 120, 0⟩ = (5, 24) := by
    rw [bucketKey]; norm_num [testConfig, Prod.ext_iff]
  have hacc1 : acceptSample testConfig ⟨10, 60, 6⟩ = true := by
    simp only [acceptSample, testConfig, Bool.and_eq_true, decide_eq_true_eq]
    norm_num
  have hacc2 : acceptSample testConfig ⟨10, 62, 13/2⟩ = true := by
    simp only [acceptSample, testConfig, Bool.and_eq_true, decide_eq_true_eq]
    norm_num
  have hacc3 : acceptSample testConfig ⟨10, 121, 7⟩ = true := by
    simp only [acceptSample, testConfig, Bool.and_eq_true, decide_eq_true_eq]
    norm_num
  have hfilter : filterSamples testConfig [⟨10, 60, 6⟩, ⟨10, 62, 13/2⟩, ⟨10, 121, 7⟩] =
      ([⟨10, 60, 6⟩, ⟨10, 62, 13/2⟩, ⟨10, 121, 7⟩] : List Sample) := by
    rw [filterSamples]
    show List.filter (acceptSample testConfig)
      [Sample.mk 10 (normalizeAngle 60) 6, Sample.mk 10 (normalizeAngle 62) (13/2),
        Sample.mk 10 (normalizeAngle 121) 7] = _
    rw [normalizeAngle_eq_self (by norm_num : (0:ℚ) ≤ 60) (by norm_num : (60:ℚ) ≤ 180),
      normalizeAngle_eq_self (by norm_num : (0:ℚ) ≤ 62) (by norm_num : (62:ℚ) ≤ 180),
      normalizeAngle_eq_self (by norm_num : (0:ℚ) ≤ 121) (by norm_num : (121:ℚ) ≤ 180)]
    simp [List.filter_cons, hacc1, hacc2, hacc3]
  have hmax : max (6:ℚ) (13/2) = 13/2 := max_eq_right (by norm_num)
  have hagg12 : aggregate testConfig [⟨10, 60, 6⟩, ⟨10, 62, 13/2⟩, ⟨10, 121, 7⟩] (5, 12) =
      some ⟨2, 13/2⟩ := by
    rw [aggregate]
    simp only [List.foldl_cons, List.foldl_nil]
    simp only [insertSample, hb1, hb2, hb3, emptyTable, Prod.mk.injEq]
    norm_num [addToCell, hmax]
  have hagg24 : aggregate testConfig [⟨10, 60, 6⟩, ⟨10, 62, 13/2⟩, ⟨10, 121, 7⟩] (5, 24) =
      some ⟨1, 7⟩ := by
    rw [aggregate]
    simp only [List.foldl_cons, List.foldl_nil]
    simp only [insertSample, hb1, hb2, hb3, emptyTable, Prod.mk.injEq]
    norm_num [addToCell]
  have hrel : reliableCellExists testConfig [⟨10, 60, 6⟩, ⟨10, 62, 13/2⟩, ⟨10, 121, 7⟩] =
      true := by
    rw [reliableCellExists]
    simp only [List.any_cons, List.any_nil, hb1, hb2, hb3, hagg12, hagg24]
    simp [testConfig]
  simp only [exampleSamples]
  rw [hp60, hp120, generateFromSamples, hfilter]
  simp only [List.isEmpty_cons, Bool.false_eq_true, if_false, hrel, if_true]
  simp only [polarValue, buildTable, hagg12, hagg24]
  norm_num [testConfig]

end PolarEngine

namespace SchemaDB

/-- A row of the `boats` table of the SQL schema: primary key `id` and the
`user_id` foreign key (`REFERENCES users(id) ON DELETE CASCADE`). The
descriptive columns play no role in referential integrity and are omitted. -/
structure BoatRow where
  id : Nat
  user_id : Nat
deriving DecidableEq

/-- A row of the `log_files` table: primary key `id` and the `boat_id`
foreign key (`REFERENCES boats(id) ON DELETE CASCADE`). -/
structure LogFileRow where
  id : Nat
  boat_id : Nat
deriving DecidableEq

/-- A row of the `polars` table: primary key `id` and the `boat_id` foreign
key (`REFERENCES boats(id) ON DELETE CASCADE`). -/
structure PolarRow where
  id : Nat
  boat_id : Nat
deriving DecidableEq

/-- The relational state: the contents of `users`, `boats`, `log_files` and
`polars`, with users reduced to their ids. -/
structure DBState where
  users : List Nat
  boats : List BoatRow
  log_files : List LogFileRow
  polars : List PolarRow
deriving DecidableEq

/-- Referential integrity: every foreign key references an existing parent
row, as the `REFERENCES` clauses of the schema enforce. -/
def refIntegrity (st : DBState) : Prop :=
  (∀ b ∈ st.boats, b.user_id ∈ st.users) ∧
  (∀ lf ∈ st.log_files, ∃ b ∈ st.boats, b.id = lf.boat_id) ∧
  (∀ p ∈ st.polars, ∃ b ∈ st.boats, b.id = p.boat_id)

instance refIntegrityDecidable (st : DBState) : Decidable (refIntegrity st) :=
  inferInstanceAs (Decidable ((∀ b ∈ st.boats, b.user_id ∈ st.users) ∧
    (∀ lf ∈ st.log_files, ∃ b ∈ st.boats, b.id = lf.boat_id) ∧
    (∀ p ∈ st.polars, ∃ b ∈ st.boats, b.id = p.boat_id)))

/-- Deletion `DELETE FROM boats WHERE id = bid`: through `ON DELETE CASCADE` on
`log_files.boat_id` and `polars.boat_id`, every child row referencing the
deleted boat is deleted as well. -/
def deleteBoat (st : DBState) (bid : Nat) : DBState where
  users := st.users
  boats := st.boats.filter (fun b => decide (b.id ≠ bid))
  log_files := st.log_files.filter (fun lf => decide (lf.boat_id ≠ bid))
  polars := st.polars.filter (fun p => decide (p.boat_id ≠ bid))

/-- Deletion `DELETE FROM users WHERE id = uid`: `boats.user_id ON DELETE CASCADE`
deletes the boats of the user, and the cascades on `log_files.boat_id` and
`polars.boat_id` in turn delete the rows referencing those boats. -/
def deleteUser (st : DBState) (uid : Nat) : DBState where
  users := st.users.filter (fun u => decide (u ≠ uid))
  boats := st.boats.filter (fun b => decide (b.user_id ≠ uid))
  log_files := st.log_files.filter (fun lf =>
    !(st.boats.any (fun b => decide (b.id = lf.boat_id) && decide (b.user_id = uid))))
  polars := st.polars.filter (fun p =>
    !(st.boats.any (fun b => decide (b.id = p.boat_id) && decide (b.user_id = uid))))

/-- A concrete two-user state used by the witness. -/
def exampleDB : DBState :=
  ⟨[1, 2], [⟨1, 1⟩, ⟨2, 2⟩], [⟨1, 1⟩, ⟨2, 2⟩], [⟨1, 2⟩]⟩

/-- C8: deleting a boat deletes every `log_files` and `polars` row
referencing it, deleting a user deletes every boat referencing the user (and,
through the cascade, the rows referencing those boats), and both deletions
preserve referential integrity — no row ever references a deleted parent. -/
theorem cascade_delete_integrity (st : DBState) (h : refIntegrity st)
    (bid uid : Nat) :
    (∀ lf ∈ (deleteBoat st bid).log_files, lf.boat_id ≠ bid) ∧
    (∀ p ∈ (deleteBoat st bid).polars, p.boat_id ≠ bid) ∧
    refIntegrity (deleteBoat st bid) ∧
    (∀ b ∈ (deleteUser st uid).boats, b.user_id ≠ uid) ∧
    refIntegrity (deleteUser st uid) := by
  obtain ⟨hbu, hlb, hpb⟩ := h
  refine ⟨?_, ?_, ⟨?_, ?_, ?_⟩, ?_, ⟨?_, ?_, ?_⟩⟩
  · intro lf hlf
    simpa using (List.mem_filter.mp hlf).2
  · intro p hp
    simpa using (List.mem_filter.mp hp).2
  · intro b hb
    exact hbu b (List.mem_filter.mp hb).1
  · intro lf hlf
    obtain ⟨hmem, hne⟩ := List.mem_filter.mp hlf
    have hne' : lf.boat_id ≠ bid := by simpa using hne
    obtain ⟨b, hbmem, hbid⟩ := hlb lf hmem
    refine ⟨b, List.mem_filter.mpr ⟨hbmem, ?_⟩, hbid⟩
    simp only [decide_eq_true_eq]
    rw [hbid]
    exact hne'
  · intro p hp
    obtain ⟨hmem, hne⟩ := List.mem_filter.mp hp
    have hne' : p.boat_id ≠ bid := by simpa using hne
    obtain ⟨b, hbmem, hbid⟩ := hpb p hmem
    refine ⟨b, List.mem_filter.mpr ⟨hbmem, ?_⟩, hbid⟩
    simp only [decide_eq_true_eq]
    rw [hbid]
    exact hne'
  · intro b hb
    simpa using (List.mem_filter.mp hb).2
  · intro b hb
    obtain ⟨hmem, hne⟩ := List.mem_filter.mp hb
    have hne' : b.user_id ≠ uid := by simpa using hne
    exact List.mem_filter.mpr ⟨hbu b hmem, by simpa using hne'⟩
  · intro lf hlf
    obtain ⟨hmem, hcond⟩ := List.mem_filter.mp hlf
    simp only [Bool.not_eq_true', List.any_eq_false, Bool.and_eq_true,
      decide_eq_true_eq, not_and] at hcond
    obtain ⟨b, hbmem, hbid⟩ := hlb lf hmem
    have hneu : b.user_id ≠ uid := hcond b hbmem hbid
    exact ⟨b, List.mem_filter.mpr ⟨hbmem, by simpa using hneu⟩, hbid⟩
  · intro p hp
    obtain ⟨hmem, hcond⟩ := List.mem_filter.mp hp
    simp only [Bool.not_eq_true', List.any_eq_false, Bool.and_eq_true,
      decide_eq_true_eq, not_and] at hcond
    obtain ⟨b, hbmem, hbid⟩ := hpb p hmem
    have hneu : b.user_id ≠ uid := hcond b hbmem hbid
    exact ⟨b, List.mem_filter.mpr ⟨hbmem, by simpa using hneu⟩, hbid⟩

/-- Concrete instance of `cascade_delete_integrity`: deleting boat 1 and
deleting user 2 of the example state both keep referential integrity. -/
theorem cascade_delete_integrity_witness :
    refIntegrity (deleteBoat exampleDB 1) ∧ refIntegrity (deleteUser exampleDB 2) :=
  ⟨(cascade_delete_integrity exampleDB (by decide) 1 2).2.2.1,
    (cascade_delete_integrity exampleDB (by decide) 1 2).2.2.2.2⟩

end SchemaDB

namespace Dashboard

/-- A JavaScript value as it reaches the reduce in the Dashboard: a per-boat count
field may hold a number, be `null`, or be absent (`undefined`). -/
inductive JSVal where
  | undef
  | null
  | num (n : Int)
deriving DecidableEq

/-- JavaScript truthiness of the modelled values: `undefined` and `null` are
falsy, and a number is falsy exactly when it is zero. -/
def JSVal.truthy : JSVal → Bool
  | .undef => false
  | .null => false
  | .num n => decide (n ≠ 0)

/-- The JavaScript expression `v || 0` from `Dashboard.jsx`
(`boat.log_file_count || 0`): the number held by `v` when `v` is truthy, `0`
otherwise. -/
def jsOrZero (v : JSVal) : Int :=
  if v.truthy then
    match v with
    | .num n => n
    | .undef => 0
    | .null => 0
  else 0

/-- The per-boat fields read by the stats cards of the Dashboard. -/
structure BoatStats where
  log_file_count : JSVal
  polar_count : JSVal
deriving DecidableEq

/-- Source `Dashboard.jsx` line 104:
`boats.reduce((sum, boat) => sum + (boat.log_file_count || 0), 0)`. -/
def totalLogFiles (boats : List BoatStats) : Int :=
  boats.foldl (fun sum b => sum + jsOrZero b.log_file_count) 0

/-- Source `Dashboard.jsx` line 119:
`boats.reduce((sum, boat) => sum + (boat.polar_count || 0), 0)`. -/
def totalPolars (boats : List BoatStats) : Int :=
  boats.foldl (fun sum b => sum + jsOrZero b.polar_count) 0

/-- A left fold adding image values equals the initial value plus the sum of
the mapped list. -/
theorem foldl_add_eq_sum {α : Type} (f : α → Int) (l : List α) (init : Int) :
    l.foldl (fun s b => s + f b) init = init + (l.map f).sum := by
  induction l generalizing init with
  | nil => simp
  | cons a t ih => simp [List.foldl_cons, ih, add_assoc]

/-- C9: the Dashboard "Log Files" total is the sum over all boats of their
`log_file_count` contribution and its "Polars Generated" total is the sum of
the `polar_count` contributions, where a missing, `null`, or otherwise falsy
field contributes `0`. -/
theorem dashboard_totals (boats : List BoatStats) :
    totalLogFiles boats = (boats.map (fun b => jsOrZero b.log_file_count)).sum ∧
    totalPolars boats = (boats.map (fun b => jsOrZero b.polar_count)).sum ∧
    jsOrZero .undef = 0 ∧ jsOrZero .null = 0 ∧
    (∀ n : Int, JSVal.truthy (.num n) = false → jsOrZero (.num n) = 0) := by
  refine ⟨?_, ?_, rfl, rfl, ?_⟩
  · rw [totalLogFiles, foldl_add_eq_sum]
    simp
  · rw [totalPolars, foldl_add_eq_sum]
    simp
  · intro n hn
    simp [jsOrZero, hn]

/-- Concrete instance of `dashboard_totals`: two boats, one with a missing
log-file count and the other with a `null` polar count. -/
theorem dashboard_totals_witness :
    totalLogFiles [⟨.num 3, .null⟩, ⟨.undef, .num 2⟩] = 3 ∧
    totalPolars [⟨.num 3, .null⟩, ⟨.undef, .num 2⟩] = 2 := by
  have h := dashboard_totals [⟨.num 3, .null⟩, ⟨.undef, .num 2⟩]
  have h0 := h.2.2.2.2 0 rfl
  refine ⟨?_, ?_⟩
  · rw [h.1]; decide
  · rw [h.2.1]; decide

end Dashboard

namespace BoatForm

/-- A JavaScript number as produced by `parseInt` / `parseFloat`: either a
numeric value or `NaN`. -/
inductive JSNum where
  | nan
  | num (q : ℚ)
deriving DecidableEq

/-- Negate a JavaScript number (`NaN` stays `NaN`). -/
def JSNum.neg : JSNum → JSNum
  | .nan => .nan
  | .num q => .num (-q)

/-- The value of a digit run read in base 10. -/
def digitsVal (ds : List Char) : Nat :=
  ds.foldl (fun n c => 10 * n + (c.toNat - 48)) 0

/-- The longest leading digit run as a number, `NaN` when there is none. -/
def parseLeadingDigits (cs : List Char) : JSNum :=
  if (cs.takeWhile Char.isDigit).isEmpty then .nan
  else .num (digitsVal (cs.takeWhile Char.isDigit))

/-- JavaScript `parseInt(s)` on a decimal string: optional sign, then the
longest leading digit run; parsing stops at the first non-digit
(`parseInt("12.9")` is `12`), and yields `NaN` when no digit leads. -/
def parseIntJS (s : String) : JSNum :=
  match s.data with
  | '-' :: rest => (parseLeadingDigits rest).neg
  | '+' :: rest => parseLeadingDigits rest
  | cs => parseLeadingDigits cs

/-- Unsigned part of `parseFloat`: leading digits, then optionally a decimal
point and fractional digits; `NaN` when there is no digit at all. -/
def parseFloatCore (cs : List Char) : JSNum :=
  match cs.dropWhile Char.isDigit with
  | '.' :: rest2 =>
      if (cs.takeWhile Char.isDigit).isEmpty ∧
          (rest2.takeWhile Char.isDigit).isEmpty then .nan
      else
        .num ((digitsVal (cs.takeWhile Char.isDigit) : ℚ) +
          (digitsVal (rest2.takeWhile Char.isDigit) : ℚ) /
            (10 : ℚ) ^ (rest2.takeWhile Char.isDigit).length)
  | _ =>
      if (cs.takeWhile Char.isDigit).isEmpty then .nan
      else .num (digitsVal (cs.takeWhile Char.isDigit))

/-- JavaScript `parseFloat(s)` on a plain decimal string: optional sign, then
digits with an optional fractional part; trailing garbage is ignored. -/
def parseFloatJS (s : String) : JSNum :=
  match s.data with
  | '-' :: rest => (parseFloatCore rest).neg
  | '+' :: rest => parseFloatCore rest
  | cs => parseFloatCore cs

/-- The `formData` state of `CreateBoatDialog`: every field is the raw string
held by its form input. -/
structure BoatFormData where
  name : String
  boat_type : String
  class_name : String
  year_built : String
  loa : String
  lwl : String
  beam : String
  draft : String
  displacement : String
  sail_area : String
  keel_type : String
  rig_type : String
  hull_material : String
  rating_system : String
  rating_value : String
  crew_size : String
  notes : String
deriving DecidableEq

/-- The `submitData` object built by `handleSubmit`: the numeric fields are
either `null` (`none`) or a parsed number; the rest stay strings. -/
structure BoatSubmitData where
  name : String
  boat_type : String
  class_name : String
  keel_type : String
  rig_type : String
  hull_material : String
  rating_system : String
  rating_value : String
  notes : String
  year_built : Option JSNum
  loa : Option JSNum
  lwl : Option JSNum
  beam : Option JSNum
  draft : Option JSNum
  displacement : Option JSNum
  sail_area : Option JSNum
  crew_size : Option JSNum
deriving DecidableEq

/-- The conversion in `handleSubmit` (`CreateBoatDialog`, the `submitData`
literal): spread `formData`, then override each numeric field with
`formData.f ? parse(formData.f) : null` — an empty string is falsy, so it
becomes `null`; `year_built` and `crew_size` go through `parseInt`, the
other six numeric fields through `parseFloat`. -/
def handleSubmitData (fd : BoatFormData) : BoatSubmitData where
  name := fd.name
  boat_type := fd.boat_type
  class_name := fd.class_name
  keel_type := fd.keel_type
  rig_type := fd.rig_type
  hull_material := fd.hull_material
  rating_system := fd.rating_system
  rating_value := fd.rating_value
  notes := fd.notes
  year_built := if fd.year_built = "" then none else some (parseIntJS fd.year_built)
  loa := if fd.loa = "" then none else some (parseFloatJS fd.loa)
  lwl := if fd.lwl = "" then none else some (parseFloatJS fd.lwl)
  beam := if fd.beam = "" then none else some (parseFloatJS fd.beam)
  draft := if fd.draft = "" then none else some (parseFloatJS fd.draft)
  displacement :=
    if fd.displacement = "" then none else some (parseFloatJS fd.displacement)
  sail_area := if fd.sail_area = "" then none else some (parseFloatJS fd.sail_area)
  crew_size := if fd.crew_size = "" then none else some (parseIntJS fd.crew_size)

/-- C10: on submit, each empty numeric field is sent as `null` and each
non-empty one is sent parsed — `year_built` and `crew_size` as integers via
`parseInt`, the other six as floats via `parseFloat` — while every
non-numeric field is sent unchanged. -/
theorem handleSubmit_conversion (fd : BoatFormData) :
    ((fd.year_built = "" → (handleSubmitData fd).year_built = none) ∧
      (fd.year_built ≠ "" →
        (handleSubmitData fd).year_built = some (parseIntJS fd.year_built))) ∧
    ((fd.loa = "" → (handleSubmitData fd).loa = none) ∧
      (fd.loa ≠ "" → (handleSubmitData fd).loa = some (parseFloatJS fd.loa))) ∧
    ((fd.lwl = "" → (handleSubmitData fd).lwl = none) ∧
      (fd.lwl ≠ "" → (handleSubmitData fd).lwl = some (parseFloatJS fd.lwl))) ∧
    ((fd.beam = "" → (handleSubmitData fd).beam = none) ∧
      (fd.beam ≠ "" → (handleSubmitData fd).beam = some (parseFloatJS fd.beam))) ∧
    ((fd.draft = "" → (handleSubmitData fd).draft = none) ∧
      (fd.draft ≠ "" → (handleSubmitData fd).draft = some (parseFloatJS fd.draft))) ∧
    ((fd.displacement = "" → (handleSubmitData fd).displacement = none) ∧
      (fd.displacement ≠ "" →
        (handleSubmitData fd).displacement = some (parseFloatJS fd.displacement))) ∧
    ((fd.sail_area = "" → (handleSubmitData fd).sail_area = none) ∧
      (fd.sail_area ≠ "" →
        (handleSubmitData fd).sail_area = some (parseFloatJS fd.sail_area))) ∧
    ((fd.crew_size = "" → (handleSubmitData fd).crew_size = none) ∧
      (fd.crew_size ≠ "" →
        (handleSubmitData fd).crew_size = some (parseIntJS fd.crew_size))) ∧
    (handleSubmitData fd).name = fd.name ∧
    (handleSubmitData fd).boat_type = fd.boat_type ∧
    (handleSubmitData fd).class_name = fd.class_name ∧
    (handleSubmitData fd).keel_type = fd.keel_type ∧
    (handleSubmitData fd).rig_type = fd.rig_type ∧
    (handleSubmitData fd).hull_material = fd.hull_material ∧
    (handleSubmitData fd).rating_system = fd.rating_system ∧
    (handleSubmitData fd).rating_value = fd.rating_value ∧
    (handleSubmitData fd).notes = fd.notes :=
  ⟨⟨fun h => by simp [handleSubmitData, h], fun h => by simp [handleSubmitData, h]⟩,
    ⟨fun h => by simp [handleSubmitData, h], fun h => by simp [handleSubmitData, h]⟩,
    ⟨fun h => by simp [handleSubmitData, h], fun h => by simp [handleSubmitData, h]⟩,
    ⟨fun h => by simp [handleSubmitData, h], fun h => by simp [handleSubmitData, h]⟩,
    ⟨fun h => by simp [handleSubmitData, h], fun h => by simp [handleSubmitData, h]⟩,
    ⟨fun h => by simp [handleSubmitData, h], fun h => by simp [handleSubmitData, h]⟩,
    ⟨fun h => by simp [handleSubmitData, h], fun h => by simp [handleSubmitData, h]⟩,
    ⟨fun h => by simp [handleSubmitData, h], fun h => by simp [handleSubmitData, h]⟩,
    rfl, rfl, rfl, rfl, rfl, rfl, rfl, rfl, rfl⟩

/-- A form with every numeric field left empty. -/
def emptyNumericForm : BoatFormData :=
  ⟨"Aurelius", "monohull", "J/105", "", "", "", "", "", "", "", "fin", "sloop",
    "fiberglass", "IRC", "1.045", "", "good boat"⟩

/-- A form with `year_built` and `loa` filled in. -/
def filledForm : BoatFormData :=
  ⟨"Aurelius", "monohull", "J/105", "2010", "10.5", "", "", "", "", "", "fin",
    "sloop", "fiberglass", "IRC", "1.045", "", "good boat"⟩

/-- Concrete instance of `handleSubmit_conversion`: the empty `year_built`
is sent as `null`, the filled `loa` is sent parsed as a float, and `name` is
unchanged. -/
theorem handleSubmit_conversion_witness :
    (handleSubmitData emptyNumericForm).year_built = none ∧
    (handleSubmitData filledForm).loa = some (parseFloatJS "10.5") ∧
    (handleSubmitData filledForm).name = "Aurelius" :=
  ⟨(handleSubmit_conversion emptyNumericForm).1.1 rfl,
    (handleSubmit_conversion filledForm).2.1.2 (by decide),
    (handleSubmit_conversion filledForm).2.2.2.2.2.2.2.2.1⟩

end BoatForm
